import Mathlib

/-!
Verification of the redisctl Python-binding client core.

The repository ships the Python package surface (`python/redisctl/__init__.py`)
and its test suite (`tests/test_clients.py`); the Rust client core behind the
native extension `redisctl.redisctl` is not part of the sources at hand, so the
core's data model and operations below are modelled from the specification's
words (each such definition says so in its doc comment).  The method-name
inventories, the Python exception type observed at the boundary, and the
environment-variable names are taken from the test suite, which is part of the
sources.
-/

namespace Redisctl

/-- Modelled from the spec: a JSON value, the payload type of successful
outcomes.  The concrete JSON library behind the missing Rust core is out of
scope; only the shape of the value is needed. -/
inductive Json where
  | null : Json
  | bool (b : Bool) : Json
  | num (n : Int) : Json
  | str (s : String) : Json
  | arr (xs : List Json) : Json
  | obj (fields : List (String × Json)) : Json
deriving Repr

/-- Modelled from the spec: the closed error taxonomy
`MissingCredentials, InvalidConfig, Transport, HttpStatus{code}, Decode, Other`. -/
inductive ErrorKind where
  | missingCredentials : ErrorKind
  | invalidConfig : ErrorKind
  | transport : ErrorKind
  | httpStatus (code : Nat) : ErrorKind
  | decode : ErrorKind
  | other : ErrorKind
deriving Repr, DecidableEq

/-- Modelled from the spec: a structured error carrying kind plus
human-readable detail. -/
structure Err where
  kind : ErrorKind
  detail : String
deriving Repr, DecidableEq

/-- Modelled from the spec: `Outcome` — either `Success{status, body}` or
`Failure{kind, detail}`. -/
inductive Outcome where
  | success (status : Nat) (body : Json) : Outcome
  | failure (err : Err) : Outcome
deriving Repr

/-- Modelled from the spec: the credential tagged union with exactly two
variants, cloud `{api_key, api_secret}` and cluster `{username, password}`. -/
inductive Credentials where
  | cloud (api_key api_secret : String) : Credentials
  | cluster (username password : String) : Credentials
deriving Repr, DecidableEq

/-- Modelled from the spec: `ClientConfig` with per-surface default base URL,
default timeout, and the explicit `insecure_tls` flag (false by default). -/
structure ClientConfig where
  base_url : String
  timeout_secs : Nat
  insecure_tls : Bool
deriving Repr, DecidableEq

/-- Modelled from the spec: the production cloud API root used as the default
cloud `base_url` when none is supplied. -/
def cloudDefaultBaseUrl : String := "https://api.redislabs.com/v1"

/-- Modelled from the spec: the fixed default timeout (30 s) used when none is
supplied. -/
def defaultTimeoutSecs : Nat := 30

/-- The process environment as seen by credential resolution: a variable name
either maps to a value or is absent. -/
def Env : Type := String → Option String

/-- Modelled from the spec: reading one environment variable for cloud
resolution, where a variable that is absent or empty does not count as found. -/
def lookupVar (env : Env) (name : String) : Option String :=
  match env name with
  | none => none
  | some v => if v = "" then none else some v

/-- Modelled from the spec: try an ordered list of candidate variable names,
returning the first that is present and non-empty. -/
def firstVar (env : Env) : List String → Option String
  | [] => none
  | n :: rest =>
    match lookupVar env n with
    | some v => some v
    | none => firstVar env rest

/-- The ordered alias list for the cloud API key, from the spec:
`REDIS_CLOUD_API_KEY` first, then `REDIS_CLOUD_ACCOUNT_KEY`. -/
def cloudKeyVars : List String :=
  ["REDIS_CLOUD_API_KEY", "REDIS_CLOUD_ACCOUNT_KEY"]

/-- The ordered alias list for the cloud API secret, from the spec:
`REDIS_CLOUD_API_SECRET`, then `REDIS_CLOUD_SECRET_KEY`, then
`REDIS_CLOUD_USER_KEY`. -/
def cloudSecretVars : List String :=
  ["REDIS_CLOUD_API_SECRET", "REDIS_CLOUD_SECRET_KEY", "REDIS_CLOUD_USER_KEY"]

/-- Modelled from the spec: cloud environment credential resolution.  The key
is resolved first through its alias chain; if that fails the whole resolution
fails with `MissingCredentials("API key not found")` before the secret is ever
examined; otherwise the secret chain is tried and its failure yields
`MissingCredentials("API secret not found")`. -/
def cloudCredsFromEnv (env : Env) : Except Err Credentials :=
  match firstVar env cloudKeyVars with
  | none => .error ⟨.missingCredentials, "API key not found"⟩
  | some key =>
    match firstVar env cloudSecretVars with
    | none => .error ⟨.missingCredentials, "API secret not found"⟩
    | some secret => .ok (.cloud key secret)

/-- Modelled from the spec: cluster environment credential resolution — reads
exactly `REDIS_ENTERPRISE_URL`, `REDIS_ENTERPRISE_USER`,
`REDIS_ENTERPRISE_PASSWORD`, no aliases; any absence fails with
`MissingCredentials` naming the missing variable. -/
def clusterFromEnv (env : Env) : Except Err (String × Credentials) :=
  match env "REDIS_ENTERPRISE_URL" with
  | none => .error ⟨.missingCredentials, "REDIS_ENTERPRISE_URL not set"⟩
  | some url =>
    match env "REDIS_ENTERPRISE_USER" with
    | none => .error ⟨.missingCredentials, "REDIS_ENTERPRISE_USER not set"⟩
    | some user =>
      match env "REDIS_ENTERPRISE_PASSWORD" with
      | none => .error ⟨.missingCredentials, "REDIS_ENTERPRISE_PASSWORD not set"⟩
      | some pw => .ok (url, .cluster user pw)

/-- Modelled from the spec: the HTTP methods of `PendingRequest`. -/
inductive Method where
  | get : Method
  | post : Method
  | put : Method
  | delete : Method
deriving Repr, DecidableEq

/-- Modelled from the spec: `PendingRequest` — method, path, ordered query
sequence, optional JSON body; the authenticator additionally attaches headers.
Constructed fresh per call, immutable after construction. -/
structure PendingRequest where
  method : Method
  path : String
  query : List (String × String)
  body : Option Json
  headers : List (String × String)
deriving Repr

/-- Modelled from the spec: `RequestAuthenticator.apply` — a pure transform
attaching the auth material as headers, a closed two-way branch on the
credential variant: cloud credentials become two custom headers carrying key
and secret verbatim; cluster credentials become one basic-authentication
header encoding `username:password` (the base64 step of the wire encoding
behind the missing core is abstracted to the raw `username:password` text,
which no claim examines). -/
def applyAuth (req : PendingRequest) (creds : Credentials) : PendingRequest :=
  match creds with
  | .cloud key secret =>
    { req with headers := req.headers ++ [("x-api-key", key), ("x-api-secret-key", secret)] }
  | .cluster user pw =>
    { req with headers := req.headers ++ [("authorization", "Basic " ++ user ++ ":" ++ pw)] }

/-- Modelled from the spec: join `base_url` and `path` normalizing exactly one
separating slash. -/
def joinUrl (base path : String) : String :=
  let base := if base.endsWith "/" then base.dropRight 1 else base
  let path := if path.startsWith "/" then path else "/" ++ path
  base ++ path

/-- Modelled from the spec: render the query sequence as a query string
preserving caller-given order (percent-escaping of reserved characters in the
missing core is abstracted to the raw text, which no claim examines). -/
def renderQuery (query : List (String × String)) : String :=
  match query with
  | [] => ""
  | _ => "?" ++ String.intercalate "&" (query.map (fun kv => kv.1 ++ "=" ++ kv.2))

/-- Modelled from the spec: what the external HTTP capability reports back —
either a transport-level failure before any response was obtained (connection
refused, DNS, TLS, timeout expiry), or a response with status and raw body. -/
inductive TransportResult where
  | fail (cause : String) : TransportResult
  | response (status : Nat) (body : String) : TransportResult
deriving Repr

/-- The external HTTP capability: absolute URL and request in, low-level
result out.  Stub transports used in the theorems are values of this type. -/
def Http : Type := String → PendingRequest → TransportResult

/-- Modelled from the spec: `Transport.send`, instrumented with the list of
requests actually dispatched to the capability.  Builds the absolute URL,
dispatches exactly once, and normalizes: a transport failure becomes
`Failure{Transport, cause}`; a 2xx response with empty body is a successful
empty-object result; a 2xx non-empty body is JSON-decoded (`decode` is the
JSON-parsing capability of the missing core), decode failure becoming
`Failure{Decode, ...}`; a non-2xx response becomes
`Failure{HttpStatus{status}, body-or-status-text}`. -/
def sendTraced (decode : String → Option Json) (cfg : ClientConfig)
    (http : Http) (req : PendingRequest) : Outcome × List (String × PendingRequest) :=
  let url := joinUrl cfg.base_url req.path ++ renderQuery req.query
  let outcome :=
    match http url req with
    | .fail cause => Outcome.failure ⟨.transport, cause⟩
    | .response status body =>
      if 200 ≤ status ∧ status < 300 then
        if body = "" then Outcome.success status (Json.obj [])
        else
          match decode body with
          | some j => Outcome.success status j
          | none => Outcome.failure ⟨.decode, "invalid JSON in response body: " ++ body⟩
      else
        Outcome.failure ⟨.httpStatus status,
          if body = "" then "HTTP status " ++ toString status else body⟩
  (outcome, [(url, req)])

/-- Modelled from the spec: `Transport.send(config, request) -> Outcome`. -/
def send (decode : String → Option Json) (cfg : ClientConfig)
    (http : Http) (req : PendingRequest) : Outcome :=
  (sendTraced decode cfg http req).1

/-- Modelled from the spec: a client instance — credentials resolved once at
construction plus the immutable config; shared read-only across calls. -/
structure Client where
  creds : Credentials
  cfg : ClientConfig
deriving Repr

/-- Modelled from the spec: the single underlying pipeline every call flows
through — build a fresh `PendingRequest`, attach auth, `Transport.send` — with
the dispatched-request trace exposed. -/
def runRequestTraced (client : Client) (decode : String → Option Json) (http : Http)
    (method : Method) (path : String) (query : List (String × String))
    (body : Option Json) : Outcome × List (String × PendingRequest) :=
  let req : PendingRequest := { method, path, query, body, headers := [] }
  sendTraced decode client.cfg http (applyAuth req client.creds)

/-- Modelled from the spec: the pipeline's outcome alone (the shape every
generic verb and resource method returns). -/
def runRequest (client : Client) (decode : String → Option Json) (http : Http)
    (method : Method) (path : String) (query : List (String × String))
    (body : Option Json) : Outcome :=
  (runRequestTraced client decode http method path query body).1

/-- Modelled from the spec: `CloudClient` explicit construction — succeeds
whenever the required fields are non-empty, else fails with `InvalidConfig`;
`base_url` defaults to the production cloud root, `timeout` to 30 s. -/
def mkCloudClient (api_key api_secret : String) (base_url : Option String)
    (timeout_secs : Option Nat) : Except Err Client :=
  if api_key = "" ∨ api_secret = "" then
    .error ⟨.invalidConfig, "api_key and api_secret are required"⟩
  else
    .ok { creds := .cloud api_key api_secret,
          cfg := { base_url := base_url.getD cloudDefaultBaseUrl,
                   timeout_secs := timeout_secs.getD defaultTimeoutSecs,
                   insecure_tls := false } }

/-- Modelled from the spec: `EnterpriseClient` explicit construction —
succeeds whenever the required fields are non-empty, else fails with
`InvalidConfig`; `insecure_tls` is an explicit flag, never inferred. -/
def mkEnterpriseClient (base_url username password : String) (insecure : Bool)
    (timeout_secs : Option Nat) : Except Err Client :=
  if base_url = "" ∨ username = "" ∨ password = "" then
    .error ⟨.invalidConfig, "base_url, username and password are required"⟩
  else
    .ok { creds := .cluster username password,
          cfg := { base_url, timeout_secs := timeout_secs.getD defaultTimeoutSecs,
                   insecure_tls := insecure } }

/-- Modelled from the spec: `CloudClient.from_env` — resolve cloud credentials
from the environment (precedence of §4.1) and construct the client with
default config; a resolution failure is reported at construction time. -/
def cloudClientFromEnv (env : Env) : Except Err Client :=
  match cloudCredsFromEnv env with
  | .error e => .error e
  | .ok creds =>
    .ok { creds,
          cfg := { base_url := cloudDefaultBaseUrl,
                   timeout_secs := defaultTimeoutSecs, insecure_tls := false } }

/-- Modelled from the spec: `EnterpriseClient.from_env` — reads the three
`REDIS_ENTERPRISE_*` variables and constructs the client. -/
def enterpriseClientFromEnv (env : Env) : Except Err Client :=
  match clusterFromEnv env with
  | .error e => .error e
  | .ok (url, creds) =>
    .ok { creds,
          cfg := { base_url := url, timeout_secs := defaultTimeoutSecs,
                   insecure_tls := false } }

/-- Modelled from the spec: every operation the cloud client exposes — the
four generic verbs over an arbitrary path plus the fixed-path resource
methods of §4.5. -/
inductive CloudOp where
  | subscriptions : CloudOp
  | subscription (id : Nat) : CloudOp
  | databases (subscription_id : Nat) : CloudOp
  | database (subscription_id database_id : Nat) : CloudOp
  | get (path : String) (query : List (String × String)) : CloudOp
  | post (path : String) (body : Option Json) : CloudOp
  | put (path : String) (body : Option Json) : CloudOp
  | delete (path : String) (query : List (String × String)) : CloudOp

/-- Modelled from the spec: cloud resource methods are pure path/verb
selection over the generic verb layer — this maps each operation to the
(method, path, query, body) it issues. -/
def CloudOp.request : CloudOp → Method × String × List (String × String) × Option Json
  | .subscriptions => (.get, "/subscriptions", [], none)
  | .subscription id => (.get, "/subscriptions/" ++ toString id, [], none)
  | .databases sid => (.get, "/subscriptions/" ++ toString sid ++ "/databases", [], none)
  | .database sid did =>
    (.get, "/subscriptions/" ++ toString sid ++ "/databases/" ++ toString did, [], none)
  | .get path query => (.get, path, query, none)
  | .post path body => (.post, path, [], body)
  | .put path body => (.put, path, [], body)
  | .delete path query => (.delete, path, query, none)

/-- Modelled from the spec: every operation the cluster client exposes — the
generic verbs plus the fixed-path resource methods of §4.6. -/
inductive EnterpriseOp where
  | cluster_info : EnterpriseOp
  | cluster_stats : EnterpriseOp
  | license : EnterpriseOp
  | databases : EnterpriseOp
  | database (id : Nat) : EnterpriseOp
  | database_stats (id : Nat) : EnterpriseOp
  | nodes : EnterpriseOp
  | node (id : Nat) : EnterpriseOp
  | node_stats (id : Nat) : EnterpriseOp
  | users : EnterpriseOp
  | user (id : Nat) : EnterpriseOp
  | get (path : String) (query : List (String × String)) : EnterpriseOp
  | post (path : String) (body : Option Json) : EnterpriseOp
  | put (path : String) (body : Option Json) : EnterpriseOp
  | delete (path : String) (query : List (String × String)) : EnterpriseOp

/-- Modelled from the spec: each cluster operation maps to one fixed,
well-known path under the management API root (the concrete path constants of
the missing core are not observable to any claim). -/
def EnterpriseOp.request : EnterpriseOp → Method × String × List (String × String) × Option Json
  | .cluster_info => (.get, "/v1/cluster", [], none)
  | .cluster_stats => (.get, "/v1/cluster/stats", [], none)
  | .license => (.get, "/v1/license", [], none)
  | .databases => (.get, "/v1/bdbs", [], none)
  | .database id => (.get, "/v1/bdbs/" ++ toString id, [], none)
  | .database_stats id => (.get, "/v1/bdbs/stats/" ++ toString id, [], none)
  | .nodes => (.get, "/v1/nodes", [], none)
  | .node id => (.get, "/v1/nodes/" ++ toString id, [], none)
  | .node_stats id => (.get, "/v1/nodes/stats/" ++ toString id, [], none)
  | .users => (.get, "/v1/users", [], none)
  | .user id => (.get, "/v1/users/" ++ toString id, [], none)
  | .get path query => (.get, path, query, none)
  | .post path body => (.post, path, [], body)
  | .put path body => (.put, path, [], body)
  | .delete path query => (.delete, path, query, none)

/-- Modelled from the spec: the handle returned by the non-blocking call form —
a suspended computation resolving to the operation's Outcome. -/
def AsyncHandle (α : Type) : Type := Unit → α

/-- Modelled from the spec: drive a non-blocking handle to completion
synchronously (the block-on pattern the blocking form is defined by). -/
def blockOn {α : Type} (h : AsyncHandle α) : α := h ()

/-- Modelled from the spec: the non-blocking form of every cloud operation —
returns a handle over the one shared pipeline. -/
def cloudOpAsync (client : Client) (decode : String → Option Json) (http : Http)
    (op : CloudOp) : AsyncHandle Outcome :=
  fun _ =>
    let r := op.request
    runRequest client decode http r.1 r.2.1 r.2.2.1 r.2.2.2

/-- Modelled from the spec: the blocking form of every cloud operation is
defined as driving the non-blocking form to completion — never a second
pipeline. -/
def cloudOpSync (client : Client) (decode : String → Option Json) (http : Http)
    (op : CloudOp) : Outcome :=
  blockOn (cloudOpAsync client decode http op)

/-- Modelled from the spec: the non-blocking form of every cluster
operation. -/
def enterpriseOpAsync (client : Client) (decode : String → Option Json) (http : Http)
    (op : EnterpriseOp) : AsyncHandle Outcome :=
  fun _ =>
    let r := op.request
    runRequest client decode http r.1 r.2.1 r.2.2.1 r.2.2.2

/-- Modelled from the spec: the blocking form of every cluster operation,
again by driving the non-blocking form. -/
def enterpriseOpSync (client : Client) (decode : String → Option Json) (http : Http)
    (op : EnterpriseOp) : Outcome :=
  blockOn (enterpriseOpAsync client decode http op)

/-- The non-blocking method names of the cloud client, as enumerated by
`tests/test_clients.py` (`TestCloudClient.test_has_async_methods`). -/
def cloudAsyncMethodNames : List String :=
  ["subscriptions", "subscription", "databases", "database",
   "get", "post", "put", "delete"]

/-- The blocking method names of the cloud client, as enumerated by
`tests/test_clients.py` (`TestCloudClient.test_has_sync_methods`). -/
def cloudSyncMethodNames : List String :=
  ["subscriptions_sync", "subscription_sync", "databases_sync", "database_sync",
   "get_sync", "post_sync", "put_sync", "delete_sync"]

/-- The non-blocking method names of the cluster client, as enumerated by
`tests/test_clients.py` (`TestEnterpriseClient.test_has_async_methods`). -/
def enterpriseAsyncMethodNames : List String :=
  ["cluster_info", "cluster_stats", "license",
   "databases", "database", "database_stats",
   "nodes", "node", "node_stats",
   "users", "user",
   "get", "post", "put", "delete"]

/-- The blocking method names of the cluster client, as enumerated by
`tests/test_clients.py` (`TestEnterpriseClient.test_has_sync_methods`). -/
def enterpriseSyncMethodNames : List String :=
  ["cluster_info_sync", "cluster_stats_sync", "license_sync",
   "databases_sync", "database_sync", "database_stats_sync",
   "nodes_sync", "node_sync", "node_stats_sync",
   "users_sync", "user_sync",
   "get_sync", "post_sync", "put_sync", "delete_sync"]

/-- The base (non-blocking) method name of each cloud operation. -/
def CloudOp.name : CloudOp → String
  | .subscriptions => "subscriptions"
  | .subscription _ => "subscription"
  | .databases _ => "databases"
  | .database _ _ => "database"
  | .get _ _ => "get"
  | .post _ _ => "post"
  | .put _ _ => "put"
  | .delete _ _ => "delete"

/-- The base (non-blocking) method name of each cluster operation. -/
def EnterpriseOp.name : EnterpriseOp → String
  | .cluster_info => "cluster_info"
  | .cluster_stats => "cluster_stats"
  | .license => "license"
  | .databases => "databases"
  | .database _ => "database"
  | .database_stats _ => "database_stats"
  | .nodes => "nodes"
  | .node _ => "node"
  | .node_stats _ => "node_stats"
  | .users => "users"
  | .user _ => "user"
  | .get _ _ => "get"
  | .post _ _ => "post"
  | .put _ _ => "put"
  | .delete _ _ => "delete"

/-- The names the Python package exports, from
`python/redisctl/__init__.py` (`__all__`). -/
def pythonPackageExports : List String :=
  ["CloudClient", "EnterpriseClient", "RedisCtlError", "__version__"]

/-- The Python exception a core error surfaces as at the embedding
boundary. -/
inductive PyExc where
  | valueError (msg : String) : PyExc
  | redisCtlError (msg : String) : PyExc
deriving Repr, DecidableEq

/-- Modelled from the spec and the test suite: the exception translation of
the embedding layer.  The tests pin down that `MissingCredentials` from
`from_env` surfaces as Python `ValueError` whose message carries the
resolver's detail text; credential/config validation errors behave alike,
while request-time failures surface as the package's own `RedisCtlError`. -/
def toPyExc (e : Err) : PyExc :=
  match e.kind with
  | .missingCredentials => .valueError e.detail
  | .invalidConfig => .valueError e.detail
  | _ => .redisCtlError e.detail

/-- Whether an `Except`-valued construction succeeded. -/
def exceptOk {ε α : Type} : Except ε α → Bool
  | .ok _ => true
  | .error _ => false

/-- Whether an outcome is a transport-level failure. -/
def Outcome.isTransportFailure : Outcome → Bool
  | .failure ⟨.transport, _⟩ => true
  | _ => false

/-- Two sequential invocations of the same operation against the same stub
transport, modelling "issue the same call twice". -/
def callTwice (client : Client) (decode : String → Option Json) (http : Http)
    (op : CloudOp) : Outcome × Outcome :=
  let first := cloudOpSync client decode http op
  let second := cloudOpSync client decode http op
  (first, second)

/-- When both key variables are absent-or-empty, cloud credential resolution
fails with the key message, whatever the secret variables hold. -/
lemma cloudCreds_key_missing (env : Env)
    (hk : lookupVar env "REDIS_CLOUD_API_KEY" = none)
    (ha : lookupVar env "REDIS_CLOUD_ACCOUNT_KEY" = none) :
    cloudCredsFromEnv env = .error ⟨.missingCredentials, "API key not found"⟩ := by
  simp [cloudCredsFromEnv, cloudKeyVars, firstVar, hk, ha]

/-- When the key resolves but all three secret variables are absent-or-empty,
cloud credential resolution fails with the secret message. -/
lemma cloudCreds_secret_missing (env : Env) (k : String)
    (hk : firstVar env cloudKeyVars = some k)
    (h1 : lookupVar env "REDIS_CLOUD_API_SECRET" = none)
    (h2 : lookupVar env "REDIS_CLOUD_SECRET_KEY" = none)
    (h3 : lookupVar env "REDIS_CLOUD_USER_KEY" = none) :
    cloudCredsFromEnv env = .error ⟨.missingCredentials, "API secret not found"⟩ := by
  unfold cloudCredsFromEnv
  rw [hk]
  simp [cloudSecretVars, firstVar, h1, h2, h3]

/-- C2: with both `REDIS_CLOUD_API_KEY` and `REDIS_CLOUD_ACCOUNT_KEY` absent or
empty, cloud `from_environment` fails with `MissingCredentials` whose message
is "API key not found", regardless of the secret variables (the environment is
otherwise unconstrained): key resolution precedes secret resolution and its
failure short-circuits. -/
theorem cloud_from_env_missing_key (env : Env)
    (hk : lookupVar env "REDIS_CLOUD_API_KEY" = none)
    (ha : lookupVar env "REDIS_CLOUD_ACCOUNT_KEY" = none) :
    cloudClientFromEnv env = .error ⟨.missingCredentials, "API key not found"⟩ := by
  simp [cloudClientFromEnv, cloudCreds_key_missing env hk ha]

/-- C2 witness: an environment with every secret variable set but no key
variable still reports the missing key. -/
theorem cloud_from_env_missing_key_witness :
    cloudClientFromEnv
      (fun n => if n = "REDIS_CLOUD_API_SECRET" ∨ n = "REDIS_CLOUD_SECRET_KEY"
                   ∨ n = "REDIS_CLOUD_USER_KEY" then some "s" else none)
      = .error ⟨.missingCredentials, "API key not found"⟩ :=
  cloud_from_env_missing_key _ (by decide) (by decide)

/-- C3: with the cloud API key resolved (for instance only
`REDIS_CLOUD_API_KEY` set) and none of `REDIS_CLOUD_API_SECRET`,
`REDIS_CLOUD_SECRET_KEY`, `REDIS_CLOUD_USER_KEY` set, cloud
`from_environment` fails with `MissingCredentials` whose message is
"API secret not found". -/
theorem cloud_from_env_missing_secret (env : Env) (k : String)
    (hk : firstVar env cloudKeyVars = some k)
    (h1 : lookupVar env "REDIS_CLOUD_API_SECRET" = none)
    (h2 : lookupVar env "REDIS_CLOUD_SECRET_KEY" = none)
    (h3 : lookupVar env "REDIS_CLOUD_USER_KEY" = none) :
    cloudClientFromEnv env = .error ⟨.missingCredentials, "API secret not found"⟩ := by
  simp [cloudClientFromEnv, cloudCreds_secret_missing env k hk h1 h2 h3]

/-- C3 witness: only `REDIS_CLOUD_API_KEY` is set and the missing secret is
reported. -/
theorem cloud_from_env_missing_secret_witness :
    cloudClientFromEnv (fun n => if n = "REDIS_CLOUD_API_KEY" then some "test-key" else none)
      = .error ⟨.missingCredentials, "API secret not found"⟩ :=
  cloud_from_env_missing_secret
    (fun n => if n = "REDIS_CLOUD_API_KEY" then some "test-key" else none)
    "test-key" (by decide) (by decide) (by decide) (by decide)

/-- C4: the key alias chain tries `REDIS_CLOUD_API_KEY` before
`REDIS_CLOUD_ACCOUNT_KEY`, and the secret chain tries
`REDIS_CLOUD_API_SECRET`, then `REDIS_CLOUD_SECRET_KEY`, then
`REDIS_CLOUD_USER_KEY`, in that order; consequently `from_environment`
succeeds on `REDIS_CLOUD_API_KEY`+`REDIS_CLOUD_API_SECRET`, and independently
on only `REDIS_CLOUD_ACCOUNT_KEY`+`REDIS_CLOUD_USER_KEY`. -/
theorem cloud_env_alias_precedence :
    (∀ (env : Env) (k : String), lookupVar env "REDIS_CLOUD_API_KEY" = some k →
       firstVar env cloudKeyVars = some k)
    ∧ (∀ env : Env, lookupVar env "REDIS_CLOUD_API_KEY" = none →
       firstVar env cloudKeyVars = lookupVar env "REDIS_CLOUD_ACCOUNT_KEY")
    ∧ (∀ (env : Env) (s : String), lookupVar env "REDIS_CLOUD_API_SECRET" = some s →
       firstVar env cloudSecretVars = some s)
    ∧ (∀ (env : Env) (s : String), lookupVar env "REDIS_CLOUD_API_SECRET" = none →
       lookupVar env "REDIS_CLOUD_SECRET_KEY" = some s →
       firstVar env cloudSecretVars = some s)
    ∧ (∀ env : Env, lookupVar env "REDIS_CLOUD_API_SECRET" = none →
       lookupVar env "REDIS_CLOUD_SECRET_KEY" = none →
       firstVar env cloudSecretVars = lookupVar env "REDIS_CLOUD_USER_KEY")
    ∧ (∀ (env : Env) (k s : String),
       lookupVar env "REDIS_CLOUD_API_KEY" = some k →
       lookupVar env "REDIS_CLOUD_API_SECRET" = some s →
       cloudCredsFromEnv env = .ok (.cloud k s) ∧ exceptOk (cloudClientFromEnv env) = true)
    ∧ (∀ (env : Env) (k s : String),
       lookupVar env "REDIS_CLOUD_API_KEY" = none →
       lookupVar env "REDIS_CLOUD_ACCOUNT_KEY" = some k →
       lookupVar env "REDIS_CLOUD_API_SECRET" = none →
       lookupVar env "REDIS_CLOUD_SECRET_KEY" = none →
       lookupVar env "REDIS_CLOUD_USER_KEY" = some s →
       cloudCredsFromEnv env = .ok (.cloud k s) ∧ exceptOk (cloudClientFromEnv env) = true) := by
  refine ⟨?_, ?_, ?_, ?_, ?_, ?_, ?_⟩
  · intro env k hk
    simp [cloudKeyVars, firstVar, hk]
  · intro env hk
    simp only [cloudKeyVars, firstVar, hk]
    cases lookupVar env "REDIS_CLOUD_ACCOUNT_KEY" <;> rfl
  · intro env s hs
    simp [cloudSecretVars, firstVar, hs]
  · intro env s h1 h2
    simp [cloudSecretVars, firstVar, h1, h2]
  · intro env h1 h2
    simp only [cloudSecretVars, firstVar, h1, h2]
    cases lookupVar env "REDIS_CLOUD_USER_KEY" <;> rfl
  · intro env k s hk hs
    constructor
    · simp [cloudCredsFromEnv, cloudKeyVars, cloudSecretVars, firstVar, hk, hs]
    · simp [cloudClientFromEnv, cloudCredsFromEnv, cloudKeyVars, cloudSecretVars,
            firstVar, hk, hs, exceptOk]
  · intro env k s hk ha h1 h2 h3
    constructor
    · simp [cloudCredsFromEnv, cloudKeyVars, cloudSecretVars, firstVar, hk, ha, h1, h2, h3]
    · simp [cloudClientFromEnv, cloudCredsFromEnv, cloudKeyVars, cloudSecretVars,
            firstVar, hk, ha, h1, h2, h3, exceptOk]

/-- C4 witness: the primary-variable environment and the alias-only
environment both resolve (with the expected credential values). -/
theorem cloud_env_alias_precedence_witness :
    (cloudCredsFromEnv
        (fun n => if n = "REDIS_CLOUD_API_KEY" then some "test-key"
                  else if n = "REDIS_CLOUD_API_SECRET" then some "test-secret" else none)
      = .ok (.cloud "test-key" "test-secret"))
    ∧ (cloudCredsFromEnv
        (fun n => if n = "REDIS_CLOUD_ACCOUNT_KEY" then some "alt-key"
                  else if n = "REDIS_CLOUD_USER_KEY" then some "alt-secret" else none)
      = .ok (.cloud "alt-key" "alt-secret")) :=
  ⟨(cloud_env_alias_precedence.2.2.2.2.2.1 _ "test-key" "test-secret"
      (by decide) (by decide)).1,
   (cloud_env_alias_precedence.2.2.2.2.2.2 _ "alt-key" "alt-secret"
      (by decide) (by decide) (by decide) (by decide) (by decide)).1⟩

/-- C5: cluster `from_environment` reads exactly `REDIS_ENTERPRISE_URL`,
`REDIS_ENTERPRISE_USER`, `REDIS_ENTERPRISE_PASSWORD` (its result depends on
the environment only through those three), fails with `MissingCredentials`
whenever any of the three is absent, and succeeds whenever all three are
present. -/
theorem cluster_from_env_requires_all_three :
    (∀ env env' : Env,
       env "REDIS_ENTERPRISE_URL" = env' "REDIS_ENTERPRISE_URL" →
       env "REDIS_ENTERPRISE_USER" = env' "REDIS_ENTERPRISE_USER" →
       env "REDIS_ENTERPRISE_PASSWORD" = env' "REDIS_ENTERPRISE_PASSWORD" →
       enterpriseClientFromEnv env = enterpriseClientFromEnv env')
    ∧ (∀ env : Env,
       (env "REDIS_ENTERPRISE_URL" = none ∨ env "REDIS_ENTERPRISE_USER" = none
          ∨ env "REDIS_ENTERPRISE_PASSWORD" = none) →
       ∃ d, enterpriseClientFromEnv env = .error ⟨.missingCredentials, d⟩)
    ∧ (∀ (env : Env) (url user pw : String),
       env "REDIS_ENTERPRISE_URL" = some url →
       env "REDIS_ENTERPRISE_USER" = some user →
       env "REDIS_ENTERPRISE_PASSWORD" = some pw →
       enterpriseClientFromEnv env
         = .ok { creds := .cluster user pw,
                 cfg := { base_url := url, timeout_secs := defaultTimeoutSecs,
                          insecure_tls := false } }) := by
  refine ⟨?_, ?_, ?_⟩
  · intro env env' h1 h2 h3
    unfold enterpriseClientFromEnv clusterFromEnv
    rw [h1, h2, h3]
  · intro env h
    unfold enterpriseClientFromEnv clusterFromEnv
    rcases hu : env "REDIS_ENTERPRISE_URL" with _ | url
    · exact ⟨_, rfl⟩
    · rcases hs : env "REDIS_ENTERPRISE_USER" with _ | user
      · exact ⟨_, rfl⟩
      · rcases hp : env "REDIS_ENTERPRISE_PASSWORD" with _ | pw
        · exact ⟨_, rfl⟩
        · rcases h with h | h | h <;> simp_all
  · intro env url user pw h1 h2 h3
    unfold enterpriseClientFromEnv clusterFromEnv
    rw [h1, h2, h3]

/-- C5 witness: the empty environment fails with `MissingCredentials`, and an
environment holding all three variables succeeds. -/
theorem cluster_from_env_requires_all_three_witness :
    (∃ d, enterpriseClientFromEnv (fun _ => none) = .error ⟨.missingCredentials, d⟩)
    ∧ enterpriseClientFromEnv
        (fun n => if n = "REDIS_ENTERPRISE_URL" then some "https://cluster:9443"
                  else if n = "REDIS_ENTERPRISE_USER" then some "admin@example.com"
                  else if n = "REDIS_ENTERPRISE_PASSWORD" then some "password" else none)
      = .ok { creds := .cluster "admin@example.com" "password",
              cfg := { base_url := "https://cluster:9443",
                       timeout_secs := defaultTimeoutSecs, insecure_tls := false } } :=
  ⟨cluster_from_env_requires_all_three.2.1 _ (Or.inl rfl),
   cluster_from_env_requires_all_three.2.2 _ "https://cluster:9443" "admin@example.com"
     "password" (by decide) (by decide) (by decide)⟩

/-- C1: for every operation of both clients and identical inputs, the blocking
form returns exactly the value the non-blocking form's handle resolves to; in
particular, under a connection-refused stub transport both forms produce the
same `Failure{Transport, cause}`. -/
theorem dual_mode_refinement :
    (∀ (client : Client) (decode : String → Option Json) (http : Http) (op : CloudOp),
       cloudOpSync client decode http op = blockOn (cloudOpAsync client decode http op))
    ∧ (∀ (client : Client) (decode : String → Option Json) (http : Http) (op : EnterpriseOp),
       enterpriseOpSync client decode http op
         = blockOn (enterpriseOpAsync client decode http op))
    ∧ (∀ (client : Client) (decode : String → Option Json) (cause : String) (op : CloudOp),
       cloudOpSync client decode (fun _ _ => .fail cause) op
           = .failure ⟨.transport, cause⟩
         ∧ blockOn (cloudOpAsync client decode (fun _ _ => .fail cause) op)
           = .failure ⟨.transport, cause⟩)
    ∧ (∀ (client : Client) (decode : String → Option Json) (cause : String) (op : EnterpriseOp),
       enterpriseOpSync client decode (fun _ _ => .fail cause) op
           = .failure ⟨.transport, cause⟩
         ∧ blockOn (enterpriseOpAsync client decode (fun _ _ => .fail cause) op)
           = .failure ⟨.transport, cause⟩) := by
  refine ⟨fun _ _ _ _ => rfl, fun _ _ _ _ => rfl, ?_, ?_⟩
  · intro client decode cause op
    cases op <;> exact ⟨rfl, rfl⟩
  · intro client decode cause op
    cases op <;> exact ⟨rfl, rfl⟩

/-- C6: explicit construction succeeds for every non-empty required input, and
the blocking and non-blocking method inventories exhibited by the clients
match exactly: the sync list is the async list suffixed `_sync`, and every
operation of each variant is present in both forms. -/
theorem method_set_parity :
    (∀ (k s : String) (b : Option String) (t : Option Nat),
       k ≠ "" → s ≠ "" → exceptOk (mkCloudClient k s b t) = true)
    ∧ (∀ (url u p : String) (ins : Bool) (t : Option Nat),
       url ≠ "" → u ≠ "" → p ≠ "" → exceptOk (mkEnterpriseClient url u p ins t) = true)
    ∧ cloudSyncMethodNames = cloudAsyncMethodNames.map (fun m => m ++ "_sync")
    ∧ enterpriseSyncMethodNames = enterpriseAsyncMethodNames.map (fun m => m ++ "_sync")
    ∧ (∀ op : CloudOp,
       op.name ∈ cloudAsyncMethodNames ∧ op.name ++ "_sync" ∈ cloudSyncMethodNames)
    ∧ (∀ op : EnterpriseOp,
       op.name ∈ enterpriseAsyncMethodNames
         ∧ op.name ++ "_sync" ∈ enterpriseSyncMethodNames) := by
  refine ⟨?_, ?_, rfl, rfl, ?_, ?_⟩
  · intro k s b t hk hs
    simp [mkCloudClient, exceptOk, hk, hs]
  · intro url u p ins t h1 h2 h3
    simp [mkEnterpriseClient, exceptOk, h1, h2, h3]
  · intro op
    cases op <;> refine ⟨?_, ?_⟩ <;> (dsimp [CloudOp.name]; decide)
  · intro op
    cases op <;> refine ⟨?_, ?_⟩ <;> (dsimp [EnterpriseOp.name]; decide)

/-- C6 witness: the test suite's concrete constructions succeed. -/
theorem method_set_parity_witness :
    exceptOk (mkCloudClient "test" "test" none none) = true
    ∧ exceptOk (mkEnterpriseClient "https://cluster:9443" "admin" "pass" false none) = true :=
  ⟨method_set_parity.1 "test" "test" none none (by decide) (by decide),
   method_set_parity.2.1 "https://cluster:9443" "admin" "pass" false none
     (by decide) (by decide) (by decide)⟩

/-- C7: every response with status outside [200,300) normalizes to
`Failure{HttpStatus{status}}`, the raw body preserved verbatim in `detail`
when non-empty; in particular a 404 with body `{"error":"not found"}` yields
`Failure{HttpStatus{404}}` whose detail is that body text. -/
theorem non2xx_http_status_failure
    (decode : String → Option Json) (cfg : ClientConfig) (req : PendingRequest)
    (status : Nat) (body : String) (h : ¬(200 ≤ status ∧ status < 300)) :
    send decode cfg (fun _ _ => .response status body) req
        = .failure ⟨.httpStatus status,
            if body = "" then "HTTP status " ++ toString status else body⟩
      ∧ send decode cfg (fun _ _ => .response 404 "\x7b\"error\":\"not found\"\x7d") req
        = .failure ⟨.httpStatus 404, "\x7b\"error\":\"not found\"\x7d"⟩ := by
  constructor
  · simp [send, sendTraced, h]
  · simp [send, sendTraced]

/-- C7 witness: the 404 stub of the spec's example, evaluated concretely. -/
theorem non2xx_http_status_failure_witness :
    send (fun _ => none)
        { base_url := "https://api.example.com/v1", timeout_secs := 30, insecure_tls := false }
        (fun _ _ => .response 404 "\x7b\"error\":\"not found\"\x7d")
        { method := .get, path := "/subscriptions", query := [], body := none, headers := [] }
      = .failure ⟨.httpStatus 404, "\x7b\"error\":\"not found\"\x7d"⟩ := by
  have h := non2xx_http_status_failure (fun _ => none)
    { base_url := "https://api.example.com/v1", timeout_secs := 30, insecure_tls := false }
    { method := .get, path := "/subscriptions", query := [], body := none, headers := [] }
    404 "\x7b\"error\":\"not found\"\x7d" (by decide)
  simpa using h.1

/-- C8: a 2xx response with empty body is a successful empty-object result,
never a `Decode` failure; a 2xx response whose non-empty body fails to parse
is a `Decode` failure; and no outcome produced from an obtained response is
ever a `Transport` failure, so the two kinds are disjoint diagnoses. -/
theorem success_decode_discrimination :
    (∀ (decode : String → Option Json) (cfg : ClientConfig) (req : PendingRequest)
       (status : Nat), 200 ≤ status → status < 300 →
       send decode cfg (fun _ _ => .response status "") req = .success status (Json.obj []))
    ∧ (∀ (decode : String → Option Json) (cfg : ClientConfig) (req : PendingRequest)
       (status : Nat) (body : String), 200 ≤ status → status < 300 →
       body ≠ "" → decode body = none →
       send decode cfg (fun _ _ => .response status body) req
         = .failure ⟨.decode, "invalid JSON in response body: " ++ body⟩)
    ∧ (∀ (decode : String → Option Json) (cfg : ClientConfig) (req : PendingRequest)
       (status : Nat) (body : String),
       Outcome.isTransportFailure (send decode cfg (fun _ _ => .response status body) req)
         = false) := by
  refine ⟨?_, ?_, ?_⟩
  · intro decode cfg req status h1 h2
    simp [send, sendTraced, h1, h2]
  · intro decode cfg req status body h1 h2 hb hd
    simp [send, sendTraced, h1, h2, hb, hd]
  · intro decode cfg req status body
    simp only [send, sendTraced]
    split
    · split
      · rfl
      · cases decode body <;> rfl
    · rfl

/-- C8 witness: a 200 with empty body succeeds as the empty object, and a 200
whose body the decoder rejects is a `Decode` failure, at concrete inputs. -/
theorem success_decode_discrimination_witness :
    send (fun _ => none)
        { base_url := "https://api.example.com/v1", timeout_secs := 30, insecure_tls := false }
        (fun _ _ => .response 200 "")
        { method := .get, path := "/subscriptions", query := [], body := none, headers := [] }
      = .success 200 (Json.obj [])
    ∧ send (fun _ => none)
        { base_url := "https://api.example.com/v1", timeout_secs := 30, insecure_tls := false }
        (fun _ _ => .response 200 "not json")
        { method := .get, path := "/subscriptions", query := [], body := none, headers := [] }
      = .failure ⟨.decode, "invalid JSON in response body: " ++ "not json"⟩ :=
  ⟨success_decode_discrimination.1 (fun _ => none) _ _ 200 (by decide) (by decide),
   success_decode_discrimination.2.1 (fun _ => none) _ _ 200 "not json"
     (by decide) (by decide) (by decide) rfl⟩

/-- C9: two sequential invocations of the same GET against the same
deterministic stub produce structurally equal outcomes, those outcomes are
equal `Success` values whenever the stub answers 2xx with a decodable body,
and each invocation dispatches exactly one request to the transport. -/
theorem get_idempotent_single_request :
    (∀ (client : Client) (decode : String → Option Json) (http : Http) (op : CloudOp),
       (callTwice client decode http op).1 = (callTwice client decode http op).2)
    ∧ (∀ (client : Client) (decode : String → Option Json)
       (path : String) (query : List (String × String))
       (status : Nat) (body : String) (j : Json),
       200 ≤ status → status < 300 → body ≠ "" → decode body = some j →
       callTwice client decode (fun _ _ => .response status body) (.get path query)
         = (.success status j, .success status j))
    ∧ (∀ (client : Client) (decode : String → Option Json) (http : Http)
       (method : Method) (path : String) (query : List (String × String))
       (body : Option Json),
       (runRequestTraced client decode http method path query body).2.length = 1) := by
  refine ⟨fun _ _ _ _ => rfl, ?_, fun _ _ _ _ _ _ _ => rfl⟩
  intro client decode path query status body j h1 h2 hb hj
  simp [callTwice, cloudOpSync, cloudOpAsync, blockOn, CloudOp.request,
        runRequest, runRequestTraced, sendTraced, h1, h2, hb, hj]

/-- C9 witness: a concrete double GET against a 200 stub yields the equal
`Success` pair. -/
theorem get_idempotent_single_request_witness :
    callTwice
        { creds := .cloud "test-key" "test-secret",
          cfg := { base_url := cloudDefaultBaseUrl, timeout_secs := defaultTimeoutSecs,
                   insecure_tls := false } }
        (fun s => if s = "[]" then some (Json.arr []) else none)
        (fun _ _ => .response 200 "[]")
        (.get "/subscriptions" [])
      = (.success 200 (Json.arr []), .success 200 (Json.arr [])) :=
  get_idempotent_single_request.2.1 _ _ "/subscriptions" [] 200 "[]" (Json.arr [])
    (by decide) (by decide) (by decide) rfl

/-- C10: at the Python boundary a `MissingCredentials` failure from cloud
`from_env` surfaces as a `ValueError` carrying the resolver's detail text
("API key not found" / "API secret not found"), even though the package also
exports a `RedisCtlError` type. -/
theorem missing_credentials_surfaces_value_error :
    (∀ env : Env,
       lookupVar env "REDIS_CLOUD_API_KEY" = none →
       lookupVar env "REDIS_CLOUD_ACCOUNT_KEY" = none →
       ∃ e, cloudClientFromEnv env = .error e
         ∧ toPyExc e = .valueError "API key not found")
    ∧ (∀ (env : Env) (k : String),
       firstVar env cloudKeyVars = some k →
       lookupVar env "REDIS_CLOUD_API_SECRET" = none →
       lookupVar env "REDIS_CLOUD_SECRET_KEY" = none →
       lookupVar env "REDIS_CLOUD_USER_KEY" = none →
       ∃ e, cloudClientFromEnv env = .error e
         ∧ toPyExc e = .valueError "API secret not found")
    ∧ "RedisCtlError" ∈ pythonPackageExports := by
  refine ⟨?_, ?_, by decide⟩
  · intro env hk ha
    refine ⟨⟨.missingCredentials, "API key not found"⟩, ?_, rfl⟩
    simp [cloudClientFromEnv, cloudCreds_key_missing env hk ha]
  · intro env k hk h1 h2 h3
    refine ⟨⟨.missingCredentials, "API secret not found"⟩, ?_, rfl⟩
    simp [cloudClientFromEnv, cloudCreds_secret_missing env k hk h1 h2 h3]

/-- C10 witness: the empty environment and the key-only environment produce
`ValueError` with the two detail texts. -/
theorem missing_credentials_surfaces_value_error_witness :
    (∃ e, cloudClientFromEnv (fun _ => none) = .error e
       ∧ toPyExc e = .valueError "API key not found")
    ∧ (∃ e, cloudClientFromEnv
          (fun n => if n = "REDIS_CLOUD_API_KEY" then some "test-key" else none) = .error e
       ∧ toPyExc e = .valueError "API secret not found") :=
  ⟨missing_credentials_surfaces_value_error.1 _ (by decide) (by decide),
   missing_credentials_surfaces_value_error.2.1
     (fun n => if n = "REDIS_CLOUD_API_KEY" then some "test-key" else none)
     "test-key" (by decide) (by decide) (by decide) (by decide)⟩

end Redisctl
